import Mathlib

/-!
# Verification of the persuasion-bot concession engine

A shallow embedding, in Lean 4, of the concession engine of the debate
service: the graded-signal policy engine (`app/services/concession_policy_engine.py`),
the debate state and end-of-match policy (`app/domain/concession_policy.py`),
the text utilities (`app/utils/text.py`), the localized verdict tables
(`app/domain/verdicts.py`), the in-memory debate store
(`app/adapters/repositories/memory_debate_store.py`) and the orchestration
in `ConcessionService.analyze_conversation` / `analyze_turn`
(`app/services/concession_service.py`).

Conventions of the embedding:
* Python floats are modelled as rationals (`ℚ`); the code only compares,
  scales and averages probabilities, so exact rational arithmetic mirrors it.
* Python strings are modelled as `List Char`; `str` injects Lean string
  literals.
* Stateful methods become state-passing functions: each takes the
  `DebateState` (the deep copy the store hands out) and returns the updated
  copy together with its result.
* The NLI provider is a deterministic oracle
  `nli : List Char → List Char → BidirScores`, matching the determinism
  guarantee of the provider interface; the LLM reply, external to the core,
  is a plain string parameter.
-/

namespace PersuasionBot

/-- `str s` is the character list underlying a string literal. -/
def str (s : String) : List Char := s.data

/-- Modelled from the spec: `app.domain.enums` is imported throughout the
source tree but the module itself is absent from the repository snapshot.
The spec fixes `Stance` as the closed, server-authoritative set {PRO, CON}. -/
inductive Stance where
  | PRO
  | CON
deriving DecidableEq, Repr

/-- `ConcessionTier` from `app/domain/nli/types.py`: closed set
NONE/SOFT/PARTIAL/FULL. -/
inductive ConcessionTier where
  | NONE
  | SOFT
  | PARTIAL
  | FULL
deriving DecidableEq, Repr

/-- Escalation order NONE < SOFT < PARTIAL < FULL on concession tiers. -/
def ConcessionTier.rank : ConcessionTier → Nat
  | .NONE => 0
  | .SOFT => 1
  | .PARTIAL => 2
  | .FULL => 3

/-- Directional NLI label probabilities (one direction of a pair). -/
structure DirScores where
  entailment : ℚ
  neutral : ℚ
  contradiction : ℚ
deriving DecidableEq, Repr

/-- A bidirectional score package `{p_to_h, h_to_p}` as produced by
`NLIPort.bidirectional_scores`. -/
structure BidirScores where
  p_to_h : DirScores
  h_to_p : DirScores
deriving DecidableEq, Repr

/-- `agg_max` from `app/nli/ops.py`: per-label maximum over the two
directions. -/
def aggMax (s : BidirScores) : DirScores :=
  { entailment := max s.p_to_h.entailment s.h_to_p.entailment
    neutral := max s.p_to_h.neutral s.h_to_p.neutral
    contradiction := max s.p_to_h.contradiction s.h_to_p.contradiction }

/-- `NLIGradedSignal` from `app/domain/nli/types.py`. -/
structure NLIGradedSignal where
  score : ℚ
  similarity : ℚ
  on_topic : Bool
  contradiction : ℚ
  entailment : ℚ
  user_wc : ℕ
  is_question_only : Bool
deriving DecidableEq, Repr

/-- `build_graded_signal` from `app/services/nli_graded.py`:
packages the pairwise probabilities with `score := contradiction`. -/
def build_graded_signal (pairwise_scores : DirScores) (similarity : ℚ)
    (on_topic : Bool) (user_wc : ℕ) (is_question_only : Bool) : NLIGradedSignal :=
  { score := pairwise_scores.contradiction
    similarity := similarity
    on_topic := on_topic
    contradiction := pairwise_scores.contradiction
    entailment := pairwise_scores.entailment
    user_wc := user_wc
    is_question_only := is_question_only }

/-- `ConcessionPolicyConfig` from `app/domain/concession_policy.py`,
with the source's default values. -/
structure ConcessionPolicyConfig where
  min_user_words : ℕ := 5
  question_only_wc_max : ℕ := 6
  min_turns_before_any_concession : ℕ := 0
  require_on_topic : Bool := true
  similarity_min : ℚ := 6/10
  soft_contra_min : ℚ := 6/10
  partial_contra_min : ℚ := 75/100
  full_contra_min : ℚ := 90/100
  ema_alpha : ℚ := 5/10
  ema_soft_min : ℚ := 65/100
  ema_partial_min : ℚ := 78/100
  ema_full_min : ℚ := 88/100
  partial_streak : ℕ := 1
  full_streak : ℕ := 2
deriving DecidableEq, Repr

/-- `ScoringConfig` from `app/domain/nli/scoring.py` (the fields the
embedded paths consult), with the source's defaults. -/
structure ScoringConfig where
  contradiction_threshold : ℚ := 55/100
  strict_contra_threshold : ℚ := 55/100
  sentence_probe_min : ℚ := 45/100
  topic_signal_min : ℚ := 35/100
  topic_neu_max : ℚ := 70/100
  min_user_words : ℕ := 8
  relatedness_min : ℚ := 35/100
  support_min : ℚ := 50/100
  margin_min : ℚ := 15/100
deriving DecidableEq, Repr

/-- `ConcessionPolicy` from `app/domain/concession_policy.py` (the verdict
policy embedded in `DebateState`), with the source's defaults. -/
structure ConcessionPolicy where
  end_on_full : Bool := true
  recent_window : ℕ := 3
  recent_min_positives : ℕ := 2
  ema_contra_min : ℚ := 80/100
  total_min_positives : ℕ := 3
  require_recent_positive : Bool := true
deriving DecidableEq, Repr

/-- `DebateState` from `app/domain/concession_policy.py`. -/
structure DebateState where
  stance : Stance
  lang : List Char
  topic : List Char
  policy : ConcessionPolicy := {}
  last_tier : Option ConcessionTier := none
  last_k_tiers : List ConcessionTier := []
  assistant_turns : ℕ := 0
  positive_judgements : ℕ := 0
  match_concluded : Bool := false
  lang_locked : Bool := false
  ema_contradiction : Option ℚ := none
  ema_similarity : Option ℚ := none
  contradiction_streak_partial : ℕ := 0
  contradiction_streak_full : ℕ := 0
  soft_concessions : ℕ := 0
  partial_concessions : ℕ := 0
deriving DecidableEq, Repr

/-- `_ema` from `app/services/concession_policy_engine.py`:
`x if prev is None else (1 - a) * prev + a * x`. -/
def emaStep (prev : Option ℚ) (x a : ℚ) : ℚ :=
  match prev with
  | none => x
  | some p => (1 - a) * p + a * x

/-- The gate branches of `apply_policy` all perform the same state update:
warm both EMAs (contradiction toward `c`, similarity toward the signal's
similarity) and reset both streaks. -/
def gateUpdate (state : DebateState) (c sim a : ℚ) : DebateState :=
  { state with
    ema_contradiction := some (emaStep state.ema_contradiction c a)
    ema_similarity := some (emaStep state.ema_similarity sim a)
    contradiction_streak_partial := 0
    contradiction_streak_full := 0 }

/-- The tail of `apply_policy` shared by the `score ≥ full_contra_min`
branch and the below-soft branch: streak escalation, then the EMA
backstops, else NONE.  `emaContra` is the just-updated contradiction EMA. -/
def policyTail (state : DebateState) (cfg : ConcessionPolicyConfig)
    (emaContra : ℚ) : ConcessionTier :=
  if state.contradiction_streak_full ≥ cfg.full_streak then .FULL
  else if DebateState.contradiction_streak_partial state ≥ cfg.partial_streak then .PARTIAL
  else if emaContra ≥ cfg.ema_full_min then .FULL
  else if emaContra ≥ cfg.ema_partial_min then .PARTIAL
  else if emaContra ≥ cfg.ema_soft_min then .SOFT
  else .NONE

/-- `apply_policy` from `app/services/concession_policy_engine.py`,
state-passing: returns the emitted tier and the mutated state. -/
def apply_policy (state : DebateState) (signal : NLIGradedSignal)
    (cfg : ConcessionPolicyConfig) : ConcessionTier × DebateState :=
  -- input-quality gates (short / question-only)
  if signal.user_wc < cfg.min_user_words ∨
      (signal.is_question_only ∧ signal.user_wc ≤ cfg.question_only_wc_max) then
    (.NONE, gateUpdate state 0 signal.similarity cfg.ema_alpha)
  -- turn gate
  else if state.assistant_turns < cfg.min_turns_before_any_concession then
    (.NONE, gateUpdate state signal.score signal.similarity cfg.ema_alpha)
  -- topic gate
  else if cfg.require_on_topic ∧ ¬ signal.on_topic then
    (.NONE, gateUpdate state 0 signal.similarity cfg.ema_alpha)
  -- similarity gate
  else if signal.similarity < cfg.similarity_min then
    (.NONE, gateUpdate state 0 signal.similarity cfg.ema_alpha)
  else
    -- update EMAs
    let emaContra := emaStep state.ema_contradiction signal.score cfg.ema_alpha
    let s1 : DebateState :=
      { state with
        ema_contradiction := some emaContra
        ema_similarity :=
          some (emaStep state.ema_similarity signal.similarity cfg.ema_alpha) }
    -- one-shot checks
    if signal.score ≥ cfg.full_contra_min then
      let s2 := { s1 with
        contradiction_streak_full := s1.contradiction_streak_full + 1
        contradiction_streak_partial := DebateState.contradiction_streak_partial s1 + 1 }
      (policyTail s2 cfg emaContra, s2)
    else if signal.score ≥ cfg.partial_contra_min then
      let s2 := { s1 with
        contradiction_streak_partial := DebateState.contradiction_streak_partial s1 + 1
        contradiction_streak_full := 0 }
      ((if cfg.partial_streak = 1 then .PARTIAL else .SOFT), s2)
    else if signal.score ≥ cfg.soft_contra_min then
      let s2 := { s1 with
        contradiction_streak_partial := 0
        contradiction_streak_full := 0 }
      (.SOFT, s2)
    else
      let s2 := { s1 with
        contradiction_streak_partial := 0
        contradiction_streak_full := 0 }
      (policyTail s2 cfg emaContra, s2)

/-- Membership of a tier in the "positive" set {PARTIAL, FULL}. -/
def tierPositive : ConcessionTier → Bool
  | .PARTIAL => true
  | .FULL => true
  | _ => false

/-- KO lane of `DebateState.should_end`. -/
def koLane (s : DebateState) : Bool :=
  s.policy.end_on_full && s.last_tier == some .FULL

/-- Recent-window lane of `DebateState.should_end`: among the last
`recent_window` tiers, at least `recent_min_positives` are PARTIAL/FULL
and the contradiction EMA is at least `ema_contra_min`
(Python's `ema_contradiction or 0.0` reads a missing EMA as 0). -/
def recentLane (s : DebateState) : Bool :=
  (s.policy.recent_window > 0 && ¬ s.last_k_tiers.isEmpty) &&
    (decide (((s.last_k_tiers.drop
        (s.last_k_tiers.length - s.policy.recent_window)).filter
          tierPositive).length ≥ s.policy.recent_min_positives) &&
      decide ((s.ema_contradiction.getD 0) ≥ s.policy.ema_contra_min))

/-- Points lane of `DebateState.should_end`: cumulative positives reach
`total_min_positives`, optionally requiring the most recent tier positive. -/
def pointsLane (s : DebateState) : Bool :=
  decide (s.positive_judgements ≥ s.policy.total_min_positives) &&
    (¬ s.policy.require_recent_positive ||
      (s.last_tier == some .PARTIAL || s.last_tier == some .FULL))

/-- `DebateState.should_end` from `app/domain/concession_policy.py`:
KO lane, then recent-window lane, then points lane, in source order. -/
def should_end (s : DebateState) : Bool :=
  if koLane s then true
  else if recentLane s then true
  else if pointsLane s then true
  else false

/-- `DebateState.maybe_conclude`: mark concluded if the policy is
satisfied; return the (new) concluded flag together with the state. -/
def maybe_conclude (s : DebateState) : Bool × DebateState :=
  if ¬ s.match_concluded ∧ should_end s then
    (true, { s with match_concluded := true })
  else (s.match_concluded, s)

/-- `DebateState.push_tier`: append the tier to the ring buffer, keeping
at most `max_keep` entries (newest at the tail). -/
def push_tier (s : DebateState) (tier : ConcessionTier) (max_keep : ℕ) :
    DebateState :=
  let ks := s.last_k_tiers ++ [tier]
  { s with
    last_tier := some tier
    last_k_tiers := if ks.length > max_keep then ks.drop (ks.length - max_keep) else ks }

/-! ## Text utilities (`app/utils/text.py`)

Python regexes are compiled to explicit scanners.  The embedding models the
ASCII fragment of Python's Unicode classes: `\s` is the six ASCII whitespace
characters, the word class `[^\W\d_]` of `WORD_RX` is `Char.isAlpha`, and
`\w` is alphanumeric-or-underscore.  Every concrete input used in this
development is ASCII, where these coincide with Python's classes. -/

/-- ASCII apostrophe, written by code point to keep it out of literals. -/
def apos : Char := Char.ofNat 39

/-- Python `\s` (ASCII fragment): space, tab, newline, carriage return,
vertical tab, form feed. -/
def isPySpace (c : Char) : Bool :=
  c = ' ' ∨ c = Char.ofNat 9 ∨ c = Char.ofNat 10 ∨ c = Char.ofNat 13 ∨
    c = Char.ofNat 11 ∨ c = Char.ofNat 12

/-- The word class `[^\W\d_]` of `WORD_RX` (ASCII fragment): letters. -/
def isWordLetter (c : Char) : Bool := c.isAlpha

/-- Python `\w` (ASCII fragment): letters, digits, underscore. -/
def isWordPy (c : Char) : Bool := c.isAlphanum ∨ c = Char.ofNat 95

/-- Lowercasing, as applied by `str.lower` / `re.IGNORECASE` on ASCII. -/
def lowerStr (s : List Char) : List Char := s.map Char.toLower

/-- Count of maximal runs of characters satisfying `p` (`inw` records
whether the previous character was inside a run). -/
def runCount (p : Char → Bool) : List Char → Bool → ℕ
  | [], _ => 0
  | c :: cs, inw =>
    if p c then (if inw then 0 else 1) + runCount p cs true
    else runCount p cs false

/-- `word_count` from `app/utils/text.py`: `len(WORD_RX.findall(text))`,
the number of maximal alphabetic runs. -/
def word_count (s : List Char) : ℕ := runCount isWordLetter s false

/-- Number of whitespace-separated tokens, Python's `len(s.split())`. -/
def wsTokenCount (s : List Char) : ℕ := runCount (fun c => ¬ isPySpace c) s false

/-- One pass of `re.sub(r'\s+', ' ', s)`: every maximal whitespace run
becomes a single plain space.  `inRun` records whether the previous
character belonged to the current whitespace run (so only the run's first
character emits the space). -/
def collapseWsAux : Bool → List Char → List Char
  | _, [] => []
  | inRun, c :: cs =>
    if isPySpace c then
      if inRun then collapseWsAux true cs else ' ' :: collapseWsAux true cs
    else c :: collapseWsAux false cs

/-- `re.sub(r'\s+', ' ', s)`. -/
def collapseWs (s : List Char) : List Char := collapseWsAux false s

/-- Python `str.strip()`: drop whitespace from both ends. -/
def pyStrip (s : List Char) : List Char :=
  (s.dropWhile isPySpace).rdropWhile isPySpace

/-- `normalize_spaces` from `app/utils/text.py`:
`re.sub(r'\s+', ' ', s).strip()`. -/
def normalize_spaces (s : List Char) : List Char := pyStrip (collapseWs s)

/-- The end markers of `END_MARKERS_RX`, lowercased.  The regex is
`(match concluded\.?|debate concluded|debate is over)` with `IGNORECASE`. -/
def markerMatch : List Char := str "match concluded"

/-- Second alternative of `END_MARKERS_RX`. -/
def markerDebate : List Char := str "debate concluded"

/-- Third alternative of `END_MARKERS_RX`. -/
def markerOver : List Char := str "debate is over"

/-- Length (in characters) of the `END_MARKERS_RX` match starting at the
head of `s`, if any: the alternatives are tried in source order and the
optional dot after `match concluded` is taken greedily. -/
def markerAt (s : List Char) : Option ℕ :=
  if markerMatch.isPrefixOf (lowerStr s) then
    some (markerMatch.length +
      (if (s.drop markerMatch.length).head? = some '.' then 1 else 0))
  else if markerDebate.isPrefixOf (lowerStr s) then some markerDebate.length
  else if markerOver.isPrefixOf (lowerStr s) then some markerOver.length
  else none

/-- `END_MARKERS_RX.sub('', text)`: leftmost, non-overlapping removal of
end markers; scanning resumes after each match in the original string.
The first argument counts characters of a recognized marker still to be
consumed (`0` means: look for a match here). -/
def subMarkersAux : ℕ → List Char → List Char
  | _, [] => []
  | 0, c :: cs =>
    match markerAt (c :: cs) with
    | some n => subMarkersAux (n - 1) cs
    | none => c :: subMarkersAux 0 cs
  | k + 1, _ :: cs => subMarkersAux k cs

/-- `END_MARKERS_RX.sub('', text)`. -/
def subMarkers (s : List Char) : List Char := subMarkersAux 0 s

/-- Whether some position of `s` starts an `END_MARKERS_RX` match. -/
def containsMarker : List Char → Bool
  | [] => false
  | c :: cs => (markerAt (c :: cs)).isSome || containsMarker cs

/-- `sanitize_end_markers` from `app/utils/text.py`:
`normalize_spaces(END_MARKERS_RX.sub('', text))`. -/
def sanitize_end_markers (s : List Char) : List Char :=
  normalize_spaces (subMarkers s)

/-- `re.split(r'(?<=[T])\s+', s)` for a terminator class `terms`: split at
every whitespace run immediately preceded by a terminator character; the
run is the delimiter, the terminator stays with the preceding piece.
`some acc` is the current piece (reversed); `none` means a delimiter's
whitespace run is being consumed. -/
def splitAfterAux (terms : List Char) : Option (List Char) → List Char → List (List Char)
  | some acc, [] => [acc.reverse]
  | none, [] => [[]]
  | some acc, c :: cs =>
    if terms.contains c && (match cs.head? with | some d => isPySpace d | none => false) then
      (acc.reverse ++ [c]) :: splitAfterAux terms none cs
    else splitAfterAux terms (some (c :: acc)) cs
  | none, c :: cs =>
    if isPySpace c then splitAfterAux terms none cs
    else if terms.contains c && (match cs.head? with | some d => isPySpace d | none => false) then
      [c] :: splitAfterAux terms none cs
    else splitAfterAux terms (some [c]) cs

/-- Split on a terminator class (see `splitAfterAux`). -/
def splitAfter (terms : List Char) (s : List Char) : List (List Char) :=
  splitAfterAux terms (some []) s

/-- Terminator class of `SENT_SPLIT_RX` in `app/utils/text.py`:
`[.!?¿\?¡!]`. -/
def sentTermsFull : List Char := ['.', '!', '?', '¿', '¡']

/-- Terminator class of the sentence split inside
`app/services/concession_service.py`: `[.!?]`. -/
def sentTermsSvc : List Char := ['.', '!', '?']

/-- `IS_QUESTION_RX.search(s)` with `IS_QUESTION_RX = [¿\?]\s*$`: the last
non-whitespace character exists and is `?` or `¿`. -/
def endsQuestion (s : List Char) : Bool :=
  match s.reverse.dropWhile isPySpace with
  | [] => false
  | c :: _ => c = '?' ∨ c = '¿'

/-- `re.sub(r'\.\.+$', '.', out)`: a trailing run of two or more dots
collapses to a single dot. -/
def collapseTrailingDots (s : List Char) : List Char :=
  let r := s.reverse
  let k := (r.takeWhile (· = '.')).length
  if k ≥ 2 then (r.drop k).reverse ++ ['.'] else s

/-- `' '.join(xs)`. -/
def joinSpace (xs : List (List Char)) : List Char :=
  List.intercalate [' '] xs

/-- `drop_questions` from `app/utils/text.py`: split into sentences, strip
them, drop empties and questions, rejoin (falling back to the raw text when
every sentence was dropped), collapse trailing dots, strip. -/
def drop_questions (text : List Char) : List Char :=
  let sents := ((splitAfter sentTermsFull text).map pyStrip).filter (· ≠ [])
  let sents := sents.filter (fun s => ¬ endsQuestion s)
  let out := if sents = [] then text else joinSpace sents
  pyStrip (collapseTrailingDots out)

/-! ## Topic canonicalization (`ConcessionService._clean_topic_for_nli`,
`_polarity_variants`, `_canonical_stance`) -/

/-- Case-insensitive keyword match at the head of `s`: returns the length
of the first keyword of `kws` (in order) that is a prefix, as under
`re.IGNORECASE` alternation. -/
def ciKeyword (s : List Char) (kws : List (List Char)) : Option ℕ :=
  (kws.find? (fun kw => (lowerStr kw).isPrefixOf (lowerStr s))).map List.length

/-- `\b` at the start of a pattern whose first character is a word
character: the preceding character (if any) is not a word character. -/
def boundaryBefore (prev : Option Char) : Bool :=
  match prev with
  | none => true
  | some p => ¬ isWordPy p

/-- Matcher for `\b(Language|Idioma)\s*:\s*[A-Za-z]{2}\b\.?` (IGNORECASE)
at the head of `s` with preceding character `prev`; returns the matched
length.  The `\s*` runs are maximal since each is followed by a
non-whitespace literal. -/
def matchLangTag (prev : Option Char) (s : List Char) : Option ℕ :=
  if ¬ boundaryBefore prev then none else
  match ciKeyword s [str "language", str "idioma"] with
  | none => none
  | some k =>
    let r1 := s.drop k
    let w1 := (r1.takeWhile isPySpace).length
    match (r1.drop w1).head? with
    | some ':' =>
      let r3 := (r1.drop w1).drop 1
      let w2 := (r3.takeWhile isPySpace).length
      match r3.drop w2 with
      | a :: b :: rest =>
        if a.isAlpha && b.isAlpha &&
            (match rest.head? with | none => true | some c => ¬ isWordPy c) then
          some (k + w1 + 1 + w2 + 2 + (if rest.head? = some '.' then 1 else 0))
        else none
      | _ => none
    | _ => none

/-- Matcher for `\b(Side|Lado)\s*:\s*(PRO|CON)\b\.?` (IGNORECASE). -/
def matchSideTag (prev : Option Char) (s : List Char) : Option ℕ :=
  if ¬ boundaryBefore prev then none else
  match ciKeyword s [str "side", str "lado"] with
  | none => none
  | some k =>
    let r1 := s.drop k
    let w1 := (r1.takeWhile isPySpace).length
    match (r1.drop w1).head? with
    | some ':' =>
      let r3 := (r1.drop w1).drop 1
      let w2 := (r3.takeWhile isPySpace).length
      let r4 := r3.drop w2
      match ciKeyword r4 [str "pro", str "con"] with
      | none => none
      | some m =>
        let rest := r4.drop m
        if (match rest.head? with | none => true | some c => ¬ isWordPy c) then
          some (k + w1 + 1 + w2 + m + (if rest.head? = some '.' then 1 else 0))
        else none
    | _ => none

/-- Matcher for `\b(Topic|Tema)\s*:\s*` (IGNORECASE); the trailing `\s*`
is greedy. -/
def matchTopicTag (prev : Option Char) (s : List Char) : Option ℕ :=
  if ¬ boundaryBefore prev then none else
  match ciKeyword s [str "topic", str "tema"] with
  | none => none
  | some k =>
    let r1 := s.drop k
    let w1 := (r1.takeWhile isPySpace).length
    match (r1.drop w1).head? with
    | some ':' =>
      let r3 := (r1.drop w1).drop 1
      let w2 := (r3.takeWhile isPySpace).length
      some (k + w1 + 1 + w2)
    | _ => none

/-- `re.sub(pattern, '', s)` for a matcher `m`: leftmost non-overlapping
removal.  `prev` carries the character preceding the scan position (so a
later `\b` sees the original string); the skip counter counts characters
of a recognized match still to be consumed. -/
def scanSubAux (m : Option Char → List Char → Option ℕ) :
    ℕ → Option Char → List Char → List Char
  | _, _, [] => []
  | 0, prev, c :: cs =>
    match m prev (c :: cs) with
    | some n =>
      if n = 0 then c :: scanSubAux m 0 (some c) cs
      else scanSubAux m (n - 1) (some c) cs
    | none => c :: scanSubAux m 0 (some c) cs
  | k + 1, _, c :: cs => scanSubAux m k (some c) cs

/-- `re.sub(pattern, '', s)` for a matcher `m`. -/
def scanSub (m : Option Char → List Char → Option ℕ) (prev : Option Char)
    (s : List Char) : List Char :=
  scanSubAux m 0 prev s

/-- Python `str.strip('.')` on the right only (`rstrip('.')`). -/
def rstripDots (s : List Char) : List Char := s.rdropWhile (· = '.')

/-- Python `str.strip('.')` (both ends). -/
def stripDots (s : List Char) : List Char :=
  (s.dropWhile (· = '.')).rdropWhile (· = '.')

/-- `ConcessionService._clean_topic_for_nli`: remove `Language:`, `Side:`
and `Topic:` meta markers, strip, strip dots, keep the first
dot-separated clause, strip. -/
def clean_topic_for_nli (topic : List Char) : List Char :=
  let s := scanSub matchLangTag none topic
  let s := scanSub matchSideTag none s
  let s := scanSub matchTopicTag none s
  let s := stripDots (pyStrip s)
  pyStrip (s.takeWhile (· ≠ '.'))

/-- Parse `(\s+kwᵢ)ᵢ$` against `s`: each keyword is preceded by a
non-empty whitespace run (maximal, since keywords start with letters) and
the string must end after the last keyword. -/
def parseKwSeq : List Char → List (List Char) → Bool
  | s, [] => s = []
  | s, kw :: rest =>
    let w := (s.takeWhile isPySpace).length
    w ≥ 1 && kw.isPrefixOf (s.drop w) && parseKwSeq (s.drop (w + kw.length)) rest

/-- Match of `^(.+?)(\s+kw₁)…(\s+kwₙ)$` against `s`: some non-empty prefix
is followed by the keyword sequence.  (The lazy group is discarded by the
source, which recovers the subject with `rfind` instead.) -/
def matchLazyPrefixKw (s : List Char) (kws : List (List Char)) : Bool :=
  (List.range s.length).any (fun i => i ≥ 1 && parseKwSeq (s.drop i) kws)

/-- Parse `(\s+kwᵢ)ᵢ\s+(?P<pred>.+)$` against `s` (keywords matched under
IGNORECASE), returning the predicate group.  In the final `\s+(.+)$`, the
greedy `\s+` yields back one whitespace character when nothing would
remain for the mandatory `.+`. -/
def parseKwSeqPred : List Char → List (List Char) → Option (List Char)
  | s, [] =>
    let w := (s.takeWhile isPySpace).length
    if w ≥ 1 ∧ s.drop w ≠ [] then some (s.drop w)
    else if w ≥ 2 ∧ s.length = w then some (s.drop (w - 1))
    else none
  | s, kw :: rest =>
    let w := (s.takeWhile isPySpace).length
    if w ≥ 1 ∧ (lowerStr kw).isPrefixOf (lowerStr (s.drop w)) then
      parseKwSeqPred (s.drop (w + kw.length)) rest
    else none

/-- Match of `^(?P<subj>.+?)\s+kw₁\s+…\s+kwₙ\s+(?P<pred>.+)$` (IGNORECASE):
the lazy subject takes the least split, the rest parses as in
`parseKwSeqPred`.  Returns `(subj, pred)`. -/
def matchCopula (s : List Char) (kws : List (List Char)) :
    Option (List Char × List Char) :=
  (List.range s.length).findSome? (fun i =>
    if i ≥ 1 then (parseKwSeqPred (s.drop i) kws).map (fun pred => (s.take i, pred))
    else none)

/-- Python `s.rfind(sub)` as an `Option`: greatest index where `sub`
occurs, `none` for Python's `-1`. -/
def rfindSub (s sub : List Char) : Option ℕ :=
  ((List.range (s.length + 1)).filter (fun i => sub.isPrefixOf (s.drop i))).getLast?

/-- Python slice `s[:i]` where `i` is an `rfind` result: `-1` (here
`none`) slices off the final character. -/
def pySliceTo (s : List Char) : Option ℕ → List Char
  | some i => s.take i
  | none => s.take (s.length - 1)

/-- `ConcessionService._polarity_variants`: produce the positive and
negative surface variants of a cleaned topic, trying in order the
`exists`-family patterns (on the lowercased topic, recovering the subject
by `rfind` on specific anchors), the `are (not)` and `is (not)` copula
patterns, and a generic fallback. -/
def polarity_variants (t : List Char) : List Char × List Char :=
  let t0 := rstripDots (pyStrip t)
  let tl := lowerStr t0
  if matchLazyPrefixKw tl [str "does", str "not", str "exist"] ||
      matchLazyPrefixKw tl [str "do", str "not", str "exist"] then
    let subj := pyStrip (pySliceTo t0 (rfindSub (lowerStr t0) (str " does not exist")))
    (subj ++ str " exists.", subj ++ str " does not exist.")
  else if matchLazyPrefixKw tl [str "doesn" ++ [apos] ++ str "t", str "exist"] ||
      matchLazyPrefixKw tl [str "doesnt", str "exist"] then
    let subj := pyStrip (pySliceTo t0
      (rfindSub (lowerStr t0) (str " doesn" ++ [apos] ++ str "t exist")))
    (subj ++ str " exists.", subj ++ str " does not exist.")
  else if matchLazyPrefixKw tl [str "exists"] then
    let subj := pyStrip (pySliceTo t0 (rfindSub (lowerStr t0) (str " exists")))
    (subj ++ str " exists.", subj ++ str " does not exist.")
  else
    match matchCopula t0 [str "are", str "not"] with
    | some (subj, pred) =>
      let subj := pyStrip subj
      let pred := pyStrip pred
      (subj ++ str " are " ++ pred ++ str ".", subj ++ str " are not " ++ pred ++ str ".")
    | none =>
    match matchCopula t0 [str "are"] with
    | some (subj, pred) =>
      let subj := pyStrip subj
      let pred := pyStrip pred
      (subj ++ str " are " ++ pred ++ str ".", subj ++ str " are not " ++ pred ++ str ".")
    | none =>
    match matchCopula t0 [str "is", str "not"] with
    | some (subj, pred) =>
      let subj := pyStrip subj
      let pred := pyStrip pred
      (subj ++ str " is " ++ pred ++ str ".", subj ++ str " is not " ++ pred ++ str ".")
    | none =>
    match matchCopula t0 [str "is"] with
    | some (subj, pred) =>
      let subj := pyStrip subj
      let pred := pyStrip pred
      (subj ++ str " is " ++ pred ++ str ".", subj ++ str " is not " ++ pred ++ str ".")
    | none =>
      (t0 ++ str ".", str "It is not the case that " ++ t0 ++ str ".")

/-- `ConcessionService._canonical_stance`: positive variant for PRO,
negative for CON. -/
def canonical_stance (topic_clean : List Char) (bot_stance : Stance) : List Char :=
  let v := polarity_variants topic_clean
  match bot_stance with
  | .PRO => v.1
  | .CON => v.2

/-! ## Claim extraction and the graded turn analysis
(`app/services/concession_service.py`)

The NLI provider is the deterministic oracle parameter
`nli : List Char → List Char → BidirScores`; the embedding models a
service with an NLI provider configured (`self.nli` non-`None`), as built
by the factories, so the `if not self.nli` fallbacks are not taken. -/

/-- `ConcessionService.ACK_PREFIXES`: acknowledgment openers that are not
claims. -/
def ackPrefixes : List (List Char) :=
  [str "you" ++ [apos] ++ str "re right",
   str "you are right",
   str "indeed",
   str "i agree",
   str "good point",
   str "correct",
   str "fair point",
   str "exactly"]

/-- `ConcessionService._extract_claims`: split the bot text on sentence
terminators, drop the stance header (first part) and trailing question
(last part), drop questions and acknowledgment openers, require at least
three whitespace-separated tokens, terminate each claim with punctuation. -/
def extract_claims (bot_txt : List Char) : List (List Char) :=
  if bot_txt = [] then []
  else
    let parts := ((splitAfter sentTermsSvc bot_txt).map pyStrip).filter (· ≠ [])
    let parts := if parts.length ≥ 2 then (parts.drop 1).dropLast else []
    parts.filterMap (fun s =>
      let s2 := pyStrip (drop_questions s)
      if s2 = [] then none
      else if ackPrefixes.any (fun p => p.isPrefixOf (lowerStr s2)) then none
      else
        let s2 := if ¬ (s2.getLast? = some '.' ∨ s2.getLast? = some '!')
          then s2 ++ ['.'] else s2
        if wsTokenCount s2 ≥ 3 then some s2 else none)

/-- The NLI oracle type: `bidirectional_scores` over a pair of texts. -/
abbrev NLIOracle := List Char → List Char → BidirScores

/-- `ConcessionService._extract_best_claim_pair`: score all
`(claim, user)` candidates plus the `(thesis, user)` fallback, keep the
lexicographic best by `(contradiction, relatedness)`, and force the thesis
pair when the best relatedness is below `similarity_min`. -/
def extract_best_claim_pair (nli : NLIOracle) (cfg : ConcessionPolicyConfig)
    (user_msg bot_msg thesis : List Char) : List Char × List Char :=
  let user_clean := normalize_spaces user_msg
  let claims := extract_claims bot_msg
  let candidates := claims.map (fun c => (c, user_clean)) ++
    (if thesis ≠ [] then [(thesis, user_clean)] else [])
  let best := candidates.foldl
    (fun (acc : Option (List Char × List Char) × ℚ × ℚ) ph =>
      let agg := aggMax (nli ph.1 ph.2)
      let con := agg.contradiction
      let rel := max agg.entailment (max con (1 - agg.neutral))
      if con > acc.2.1 ∨ (con = acc.2.1 ∧ rel > acc.2.2) then (some ph, con, rel)
      else acc)
    (none, -1, -1)
  match best.1 with
  | some b =>
    if best.2.2 ≥ cfg.similarity_min then b
    else if thesis ≠ [] then (thesis, user_clean) else (user_clean, user_clean)
  | none => if thesis ≠ [] then (thesis, user_clean) else (user_clean, user_clean)

/-- `ConcessionService._nli_probs`: aggregated label probabilities of a
pair. -/
def nli_probs (nli : NLIOracle) (pair : List Char × List Char) : DirScores :=
  aggMax (nli pair.1 pair.2)

/-- `ConcessionService._similarity`: `max(entailment, contradiction)` of
the aggregated pair scores (deliberately not `1 - neutral`). -/
def similarityOf (nli : NLIOracle) (pair : List Char × List Char) : ℚ :=
  let agg := aggMax (nli pair.1 pair.2)
  max agg.entailment agg.contradiction

/-- `ConcessionService._on_topic_from_scores`: either direction shows
entailment-or-contradiction at least `topic_signal_min`, or neutral at
most `topic_neu_max`. -/
def on_topic_from_scores (sc : ScoringConfig) (scores : BidirScores) : Bool :=
  let hasSignal := fun (d : DirScores) =>
    max d.entailment d.contradiction ≥ sc.topic_signal_min ∨
      d.neutral ≤ sc.topic_neu_max
  hasSignal scores.p_to_h || hasSignal scores.h_to_p

/-- `ConcessionService._topic_gate`: the on-topic probe of thesis vs the
normalized user text. -/
def topic_gate (nli : NLIOracle) (sc : ScoringConfig)
    (user_msg thesis : List Char) : Bool :=
  on_topic_from_scores sc (nli thesis (normalize_spaces user_msg))

/-- `ConcessionService._max_contra_self_vs_sentences`: scan the user's
sentences against the canonical thesis; maximum contradiction, its
entailment and its scores (`none` when no sentence improves on `0`). -/
def max_contra_self_vs_sentences (nli : NLIOracle)
    (canonical_self user_txt : List Char) : ℚ × ℚ × Option BidirScores :=
  let sentences := ((splitAfter sentTermsSvc user_txt).map pyStrip).filter (· ≠ [])
  sentences.foldl
    (fun acc s =>
      let sc := nli canonical_self s
      let agg := aggMax sc
      if agg.contradiction > acc.1 then (agg.contradiction, agg.entailment, some sc)
      else acc)
    (0, 0, none)

/-- The result of `ConcessionService.analyze_turn`: the tier, the mutated
state, and the signal components the source reports (kept exact here; the
source additionally rounds them to three decimals for telemetry). -/
structure TurnDecision where
  tier : ConcessionTier
  state : DebateState
  contradiction : ℚ
  entailment : ℚ
  similarity : ℚ
  on_topic : Bool
deriving DecidableEq, Repr

/-- `ConcessionService.analyze_turn`: pick the best claim pair, compute
NLI probabilities, quality-scaled similarity and the topic gate, build the
graded signal, and apply the policy. -/
def analyze_turn (nli : NLIOracle) (cfg : ConcessionPolicyConfig)
    (sc : ScoringConfig) (state : DebateState)
    (user_msg bot_msg thesis : List Char) : TurnDecision :=
  let best_pair := extract_best_claim_pair nli cfg user_msg bot_msg thesis
  let pairwise := nli_probs nli best_pair
  let similarity_raw := similarityOf nli best_pair
  let on_topic := topic_gate nli sc user_msg thesis
  let u_wc := word_count user_msg
  let quality := min 1 ((u_wc : ℚ) / ((max 1 cfg.min_user_words : ℕ) : ℚ))
  let similarity := max 0 (min 1 (similarity_raw * quality))
  let is_q_only := (pyStrip user_msg).getLast? = some '?' &&
    u_wc ≤ cfg.question_only_wc_max
  let signal := build_graded_signal pairwise similarity on_topic u_wc is_q_only
  let r := apply_policy state signal cfg
  { tier := r.1
    state := r.2
    contradiction := pairwise.contradiction
    entailment := pairwise.entailment
    similarity := similarity
    on_topic := on_topic }

/-! ## Verdicts (`app/domain/verdicts.py`) -/

/-- `_VERDICT_LINE`: the localized verdict table (en/es/pt/fr/de/it). -/
def verdictLine : List (List Char × List Char) :=
  [(str "en", str "On balance, the opposing argument addressed key counters with evidence and causality. I concede the point."),
   (str "es", str "En conjunto, el argumento contrario abordó los puntos clave con evidencia y causalidad. Cedo el punto."),
   (str "pt", str "No conjunto, o argumento oposto tratou os pontos-chave com evidência e causalidade. Eu cedo o ponto."),
   (str "fr", str "Dans l’ensemble, l’argument adverse a répondu aux points clés avec des preuves et une chaîne causale. J’accorde le point."),
   (str "de", str "Insgesamt hat das Gegenargument die wichtigsten Einwände mit Belegen und Kausalität adressiert. Ich gebe den Punkt ab."),
   (str "it", str "Nel complesso, l’argomentazione opposta ha affrontato i punti chiave con prove e causalità. Concedo il punto.")]

/-- `AFTER_END_MESSAGE`: the localized after-end table (en/es/pt only). -/
def afterEndMessageTable : List (List Char × List Char) :=
  [(str "en", str "The debate has already ended. Please start a new conversation if you want to debate another topic."),
   (str "es", str "El debate ya terminó. Por favor inicia una nueva conversación si quieres debatir otro tema."),
   (str "pt", str "O debate já terminou. Por favor, inicie uma nova conversa se quiser debater outro tema.")]

/-- `build_verdict`: `_VERDICT_LINE.get(state.lang)` — `none` when the
language is not a key. -/
def build_verdict (state : DebateState) : Option (List Char) :=
  (verdictLine.find? (fun kv => kv.1 = state.lang)).map Prod.snd

/-- `after_end_message`: `AFTER_END_MESSAGE.get(state.lang)`. -/
def after_end_message (state : DebateState) : Option (List Char) :=
  (afterEndMessageTable.find? (fun kv => kv.1 = state.lang)).map Prod.snd

/-! ## The orchestration (`ConcessionService.analyze_conversation`)

The LLM reply is the parameter `llmReply` (the adapters are external);
both strength-hint feature flags are `False` by default and are never
enabled by the factories, so the hint blocks are no-ops and are not
modelled.  The store interaction is modelled by returning the state that
is in the store after the call together with a `saved` flag (`get` hands
out a deep copy, so the stored state changes only on `save`). -/

/-- A repository message (`app/domain/models.py` surface used here):
`role` is `'user'` or `'bot'`. -/
structure PyMsg where
  role : List Char
  message : List Char
deriving DecidableEq, Repr

/-- A mapped chat message `{'role': ..., 'content': ...}`. -/
structure Mapped where
  role : List Char
  content : List Char
deriving DecidableEq, Repr

/-- The repo-to-chat mapping at the top of `analyze_conversation`. -/
def mapMessages (ms : List PyMsg) : List Mapped :=
  ms.map (fun m =>
    { role := if m.role = str "bot" then str "assistant" else str "user"
      content := m.message })

/-- Greatest index `i < n` with `p (xs.get i)`, as Python's
`next(i for i in range(n - 1, -1, -1) if p(xs[i]))`. -/
def findLastIdxLt (p : Mapped → Bool) (xs : List Mapped) (n : ℕ) : Option ℕ :=
  ((List.range n).filter (fun i => (xs.get? i).elim false p)).getLast?

/-- Index of the last user message. -/
def lastUserIdx (mapped : List Mapped) : Option ℕ :=
  findLastIdxLt (fun m => m.role = str "user") mapped mapped.length

/-- Index of the most recent substantive assistant message (≥ 10 words)
before `user_idx`. -/
def priorBotIdx (mapped : List Mapped) (user_idx : ℕ) : Option ℕ :=
  findLastIdxLt (fun m => m.role = str "assistant" && word_count m.content ≥ 10)
    mapped user_idx

/-- Outcome of `analyze_conversation`: the returned text (`none` models
Python's `None` from a missing localization), the state left in the store,
whether `save` ran, and — as instrumentation for the specification — the
concession tier emitted on this turn (`none` when tier evaluation was
skipped). -/
structure AnalyzeOutcome where
  output : Option (List Char)
  state : DebateState
  saved : Bool
  tier : Option ConcessionTier
deriving DecidableEq, Repr

/-- `ConcessionService._maybe_finish_and_persist` minus the `save` call:
`maybe_conclude` marks the state concluded when the verdict policy is
satisfied. -/
def maybe_finish (s : DebateState) : DebateState :=
  let r := maybe_conclude s
  if r.1 then { r.2 with match_concluded := true } else r.2

/-- The no-prior-assistant-turn path of `analyze_conversation`: sanitize
the LLM reply, bump `assistant_turns`, maybe conclude, persist. -/
def skip_path (llmReply : List Char) (state : DebateState) : AnalyzeOutcome :=
  let reply := sanitize_end_markers llmReply
  let st1 := { state with assistant_turns := state.assistant_turns + 1 }
  { output := some (pyStrip reply)
    state := maybe_finish st1
    saved := true
    tier := none }

/-- The graded main path of `analyze_conversation` after the user and bot
turns were located. -/
def main_path (nli : NLIOracle) (cfg : ConcessionPolicyConfig)
    (sc : ScoringConfig) (llmReply : List Char) (stance : Stance)
    (topic : List Char) (state : DebateState)
    (user_txt bot_txt : List Char) : AnalyzeOutcome :=
  let clean_topic := clean_topic_for_nli topic
  let thesis := canonical_stance clean_topic stance
  let d := analyze_turn nli cfg sc state user_txt bot_txt thesis
  let st1 := push_tier d.state d.tier (max d.state.policy.recent_window 5)
  let st2 := if tierPositive d.tier then
      { st1 with positive_judgements := st1.positive_judgements + 1 }
    else st1
  let reply := sanitize_end_markers llmReply
  if d.tier = .FULL then
    let st3 := { st2 with match_concluded := true }
    { output := build_verdict st3, state := st3, saved := true, tier := some d.tier }
  else
    let st3 := { st2 with assistant_turns := st2.assistant_turns + 1 }
    { output := some (pyStrip reply)
      state := maybe_finish st3
      saved := true
      tier := some d.tier }

/-- `ConcessionService.analyze_conversation` (given the state the store
holds for this conversation): short-circuit on `match_concluded`, locate
the last user turn and the prior substantive assistant turn, canonicalize
the thesis, run the graded turn analysis, steer/sanitize the reply, and
conclude or continue. -/
def analyze_conversation (nli : NLIOracle) (cfg : ConcessionPolicyConfig)
    (sc : ScoringConfig) (llmReply : List Char) (messages : List PyMsg)
    (stance : Stance) (topic : List Char) (state : DebateState) :
    AnalyzeOutcome :=
  if state.match_concluded then
    { output := after_end_message state, state := state, saved := false, tier := none }
  else
    let mapped := mapMessages messages
    match lastUserIdx mapped with
    | none => skip_path llmReply state
    | some uidx =>
      match priorBotIdx mapped uidx with
      | none => skip_path llmReply state
      | some bidx =>
        let user_txt := ((mapped.get? uidx).map Mapped.content).getD []
        let bot_txt := ((mapped.get? bidx).map Mapped.content).getD []
        main_path nli cfg sc llmReply stance topic state user_txt bot_txt

/-! ## The in-memory debate store
(`app/adapters/repositories/memory_debate_store.py`) -/

/-- Python exception kinds raised by the store paths. -/
inductive PyError where
  | typeError (msg : List Char)
  | valueError (msg : List Char)
  | keyError (msg : List Char)
deriving DecidableEq, Repr

/-- The store's backing dict, keyed by conversation id. -/
abbrev DebateDB := List (ℕ × DebateState)

/-- A keyword-call of `InMemoryDebateStore.create`, whose signature is
`create(self, conversation_id, *, stance: str, lang: str = 'es')`.
Python binds keywords first: a `topic=` argument is rejected with a
`TypeError` before the body runs; without it the body evaluates
`DebateState(stance=stance, lang=lang)`, and the `DebateState` dataclass
(`app/domain/concession_policy.py`) declares `topic` as a third required
field with no default, so `__init__` raises `TypeError` as well. -/
def create_call (db : DebateDB) (conversation_id : ℕ) (stance : Option Stance)
    (lang : Option (List Char)) (topic : Option (List Char)) :
    Except PyError (DebateState × DebateDB) :=
  if topic.isSome then
    .error (.typeError (str "create() got an unexpected keyword argument: topic"))
  else
    match stance with
    | none =>
      .error (.typeError (str "create() missing required keyword-only argument: stance"))
    | some _st =>
      let _lang := lang.getD (str "es")
      if (db.lookup conversation_id).isSome then
        .error (.valueError (str "DebateState already exists"))
      else
        .error (.typeError
          (str "DebateState.__init__() missing 1 required positional argument: topic"))

/-! ## Concrete instances used by witnesses and counterexamples -/

/-- A constant NLI oracle: every pair receives the same directional
probabilities in both directions. -/
def constNLI (e n c : ℚ) : NLIOracle := fun _ _ =>
  { p_to_h := { entailment := e, neutral := n, contradiction := c }
    h_to_p := { entailment := e, neutral := n, contradiction := c } }

/-- Strongly contradicting constant oracle (contradiction `0.93`). -/
def oracle93 : NLIOracle := constNLI (5/100) (2/100) (93/100)

/-- Strongly contradicting constant oracle (contradiction `0.95`). -/
def oracle95 : NLIOracle := constNLI (5/100) (2/100) (95/100)

/-- A fresh debate state (CON on "God exists"). -/
def exState : DebateState :=
  { stance := .CON, lang := str "en", topic := str "God exists" }

/-- A substantive bot turn (well over ten words). -/
def exBotMsg : List Char :=
  str "I present my stance. Remote work is more productive because it removes commuting and allows focused deep work sessions. What do you think?"

/-- A short user turn: four words, below the default `min_user_words`. -/
def exShortUser : List Char := str "God does not exist."

/-- History: substantive bot turn followed by the short user turn. -/
def shortMsgs : List PyMsg :=
  [{ role := str "bot", message := exBotMsg },
   { role := str "user", message := exShortUser }]

/-- The canonical CON thesis for the topic "God exists". -/
def exThesis : List Char :=
  canonical_stance (clean_topic_for_nli (str "God exists")) Stance.CON

/-- The run of `analyze_conversation` on the short-but-devastating turn:
constant thesis contradiction `0.93`, on-topic, user word count `4`. -/
def shortRun : AnalyzeOutcome :=
  analyze_conversation oracle93 {} {} (str "ok") shortMsgs .CON (str "God exists") exState

/-- A state one qualifying turn away from a FULL streak. -/
def stOneFromFull : DebateState :=
  { stance := .PRO, lang := str "en", topic := str "Remote work is more productive",
    contradiction_streak_full := 1 }

/-- A long, on-topic user turn (thirteen words). -/
def exLongUser : List Char :=
  str "No it is not because home has many distractions and teams lose alignment."

/-- History: substantive bot turn followed by the long user turn. -/
def longMsgs : List PyMsg :=
  [{ role := str "bot", message := exBotMsg },
   { role := str "user", message := exLongUser }]

/-- The run that ends in a FULL concession (score `0.95 ≥ 0.9`, full
streak reaching `2`). -/
def fullRun : AnalyzeOutcome :=
  analyze_conversation oracle95 {} {} (str "ok") longMsgs .PRO
    (str "Remote work is more productive") stOneFromFull

/-- A state for the points lane: three positive judgements, latest tier
PARTIAL, but zero assistant turns. -/
def pointsState : DebateState :=
  { stance := .PRO, lang := str "en", topic := str "t",
    positive_judgements := 3, last_tier := some .PARTIAL,
    last_k_tiers := [.PARTIAL] }

/-- A concluded state (English). -/
def concludedState : DebateState :=
  { stance := .PRO, lang := str "en", topic := str "t", match_concluded := true }

/-- A state whose language is the unlocalized placeholder `"auto"`. -/
def autoLangState : DebateState :=
  { stance := .PRO, lang := str "auto", topic := str "t" }

/-- A state locked to French — a key of the verdict table that the
after-end table lacks. -/
def frLangState : DebateState :=
  { stance := .PRO, lang := str "fr", topic := str "t" }

/-- A gate-passing graded signal whose score sits exactly on the default
`full_contra_min` boundary. -/
def sigFullBoundary : NLIGradedSignal :=
  { score := 9/10, similarity := 8/10, on_topic := true,
    contradiction := 9/10, entailment := 1/20, user_wc := 6,
    is_question_only := false }

/-- A gate-passing but off-topic graded signal. -/
def sigOffTopic : NLIGradedSignal :=
  { score := 9/10, similarity := 8/10, on_topic := false,
    contradiction := 9/10, entailment := 1/20, user_wc := 6,
    is_question_only := false }

/-- Specification shorthand: the amount `positive_judgements` grows by for
an emitted tier (`1` exactly for PARTIAL and FULL). -/
def tierIncrement : Option ConcessionTier → ℕ
  | some .PARTIAL => 1
  | some .FULL => 1
  | _ => 0

/-- Specification predicate (for the sanitizer's idempotence analysis):
every whitespace character is a plain space and is not followed by another
whitespace character — the shape of `collapseWs` output. -/
def wsNormed : List Char → Bool
  | [] => true
  | c :: cs =>
    (if isPySpace c then
      (c == ' ') && (match cs.head? with | some d => ¬ isPySpace d | none => true)
    else true) && wsNormed cs

/-! ## Helper lemmas -/

section Theorems

-- Batteries marks the rational operations irreducible for elaboration
-- performance; concrete evaluation in proofs needs them unfolded.
attribute [local semireducible] Rat.add Rat.mul Rat.sub Rat.inv

theorem apply_policy_positive_judgements (state : DebateState)
    (signal : NLIGradedSignal) (cfg : ConcessionPolicyConfig) :
    (apply_policy state signal cfg).2.positive_judgements =
      state.positive_judgements := by
  unfold apply_policy gateUpdate
  repeat' split
  all_goals rfl

theorem apply_policy_assistant_turns (state : DebateState)
    (signal : NLIGradedSignal) (cfg : ConcessionPolicyConfig) :
    (apply_policy state signal cfg).2.assistant_turns = state.assistant_turns := by
  unfold apply_policy gateUpdate
  repeat' split
  all_goals rfl

theorem push_tier_positive_judgements (s : DebateState) (t : ConcessionTier)
    (k : ℕ) : (push_tier s t k).positive_judgements = s.positive_judgements := by
  unfold push_tier
  rfl

theorem push_tier_assistant_turns (s : DebateState) (t : ConcessionTier)
    (k : ℕ) : (push_tier s t k).assistant_turns = s.assistant_turns := by
  unfold push_tier
  rfl

theorem maybe_finish_positive_judgements (s : DebateState) :
    (maybe_finish s).positive_judgements = s.positive_judgements := by
  unfold maybe_finish maybe_conclude
  repeat' first
  | split
  | dsimp only

theorem maybe_finish_assistant_turns (s : DebateState) :
    (maybe_finish s).assistant_turns = s.assistant_turns := by
  unfold maybe_finish maybe_conclude
  repeat' first
  | split
  | dsimp only

theorem analyze_turn_positive_judgements (nli : NLIOracle)
    (cfg : ConcessionPolicyConfig) (sc : ScoringConfig) (state : DebateState)
    (u b th : List Char) :
    (analyze_turn nli cfg sc state u b th).state.positive_judgements =
      state.positive_judgements := by
  unfold analyze_turn
  exact apply_policy_positive_judgements ..

theorem analyze_turn_assistant_turns (nli : NLIOracle)
    (cfg : ConcessionPolicyConfig) (sc : ScoringConfig) (state : DebateState)
    (u b th : List Char) :
    (analyze_turn nli cfg sc state u b th).state.assistant_turns =
      state.assistant_turns := by
  unfold analyze_turn
  exact apply_policy_assistant_turns ..

theorem skip_path_tier (llmReply : List Char) (state : DebateState) :
    (skip_path llmReply state).tier = none := rfl

theorem skip_path_positive_judgements (llmReply : List Char) (state : DebateState) :
    (skip_path llmReply state).state.positive_judgements =
      state.positive_judgements := by
  unfold skip_path
  dsimp only
  rw [maybe_finish_positive_judgements]

theorem main_path_positive_judgements (nli : NLIOracle)
    (cfg : ConcessionPolicyConfig) (sc : ScoringConfig) (llmReply : List Char)
    (stance : Stance) (topic : List Char) (state : DebateState)
    (user_txt bot_txt : List Char) :
    (main_path nli cfg sc llmReply stance topic state user_txt bot_txt).state.positive_judgements =
      state.positive_judgements +
        tierIncrement (main_path nli cfg sc llmReply stance topic state user_txt bot_txt).tier := by
  unfold main_path
  dsimp only
  generalize hd : analyze_turn nli cfg sc state user_txt bot_txt
    (canonical_stance (clean_topic_for_nli topic) stance) = d
  have hpj : d.state.positive_judgements = state.positive_judgements := by
    rw [← hd]
    exact analyze_turn_positive_judgements ..
  cases ht : d.tier <;>
    simp [ht, tierPositive, tierIncrement, maybe_finish_positive_judgements,
      push_tier_positive_judgements, hpj]

theorem main_path_full (nli : NLIOracle) (cfg : ConcessionPolicyConfig)
    (sc : ScoringConfig) (llmReply : List Char) (stance : Stance)
    (topic : List Char) (state : DebateState) (user_txt bot_txt : List Char)
    (h : (main_path nli cfg sc llmReply stance topic state user_txt bot_txt).tier =
      some ConcessionTier.FULL) :
    (main_path nli cfg sc llmReply stance topic state user_txt bot_txt).state.match_concluded = true ∧
    (main_path nli cfg sc llmReply stance topic state user_txt bot_txt).saved = true ∧
    (main_path nli cfg sc llmReply stance topic state user_txt bot_txt).output =
      build_verdict (main_path nli cfg sc llmReply stance topic state user_txt bot_txt).state ∧
    (main_path nli cfg sc llmReply stance topic state user_txt bot_txt).state.assistant_turns =
      state.assistant_turns := by
  revert h
  unfold main_path
  dsimp only
  generalize hd : analyze_turn nli cfg sc state user_txt bot_txt
    (canonical_stance (clean_topic_for_nli topic) stance) = d
  have hturns : d.state.assistant_turns = state.assistant_turns := by
    rw [← hd]
    exact analyze_turn_assistant_turns ..
  by_cases hfull : d.tier = ConcessionTier.FULL
  · rw [if_pos hfull]
    intro _
    refine ⟨rfl, rfl, rfl, ?_⟩
    dsimp only
    split <;> simp [push_tier_assistant_turns, hturns]
  · rw [if_neg hfull]
    intro h
    exact absurd (Option.some_injective _ h) hfull

/-! ## C2: the `positive_judgements` increment -/

/-- C2: over any single call of `analyze_conversation`,
`positive_judgements` grows by exactly `1` when the emitted tier is
PARTIAL or FULL, and is unchanged for NONE, SOFT, the concluded
short-circuit and the skipped-evaluation path. -/
theorem C2_positive_judgements (nli : NLIOracle) (cfg : ConcessionPolicyConfig)
    (sc : ScoringConfig) (llmReply : List Char) (messages : List PyMsg)
    (stance : Stance) (topic : List Char) (state : DebateState) :
    (analyze_conversation nli cfg sc llmReply messages stance topic state).state.positive_judgements =
      state.positive_judgements +
        tierIncrement (analyze_conversation nli cfg sc llmReply messages stance topic state).tier := by
  unfold analyze_conversation
  split
  · rfl
  · dsimp only
    split
    · rw [skip_path_tier, skip_path_positive_judgements]
      rfl
    · split
      · rw [skip_path_tier, skip_path_positive_judgements]
        rfl
      · exact main_path_positive_judgements ..

/-! ## C3: the concluded short-circuit mutates nothing -/

/-- C3: when `match_concluded` already holds, `analyze_conversation`
returns the localized after-end message, leaves the stored state exactly
as it was, and persists nothing — in particular `assistant_turns`,
`positive_judgements`, the EMAs, the streaks and the tier history are
untouched and `match_concluded` stays `true` (monotonicity). -/
theorem C3_after_end_short_circuit (nli : NLIOracle)
    (cfg : ConcessionPolicyConfig) (sc : ScoringConfig) (llmReply : List Char)
    (messages : List PyMsg) (stance : Stance) (topic : List Char)
    (state : DebateState) (h : state.match_concluded = true) :
    analyze_conversation nli cfg sc llmReply messages stance topic state =
      { output := after_end_message state
        state := state
        saved := false
        tier := none } := by
  unfold analyze_conversation
  rw [if_pos h]

/-- C3 witness: a concrete concluded state (English localization). -/
theorem C3_after_end_short_circuit_witness :
    concludedState.match_concluded = true ∧
    analyze_conversation oracle93 {} {} (str "x") shortMsgs .PRO (str "t")
        concludedState =
      { output := after_end_message concludedState
        state := concludedState
        saved := false
        tier := none } :=
  ⟨rfl, C3_after_end_short_circuit oracle93 {} {} (str "x") shortMsgs .PRO
    (str "t") concludedState rfl⟩

/-! ## C4: a FULL tier ends the match immediately -/

/-- C4: whenever the emitted tier is FULL, `analyze_conversation` marks
`match_concluded`, persists the state, returns the localized verdict in
place of the LLM reply, and leaves `assistant_turns` unchanged (the
terminal verdict does not count as an assistant turn). -/
theorem C4_full_concludes (nli : NLIOracle) (cfg : ConcessionPolicyConfig)
    (sc : ScoringConfig) (llmReply : List Char) (messages : List PyMsg)
    (stance : Stance) (topic : List Char) (state : DebateState)
    (h : (analyze_conversation nli cfg sc llmReply messages stance topic state).tier =
      some ConcessionTier.FULL) :
    (analyze_conversation nli cfg sc llmReply messages stance topic state).state.match_concluded = true ∧
    (analyze_conversation nli cfg sc llmReply messages stance topic state).saved = true ∧
    (analyze_conversation nli cfg sc llmReply messages stance topic state).output =
      build_verdict (analyze_conversation nli cfg sc llmReply messages stance topic state).state ∧
    (analyze_conversation nli cfg sc llmReply messages stance topic state).state.assistant_turns =
      state.assistant_turns := by
  revert h
  unfold analyze_conversation
  split
  · intro h
    exact absurd h (by simp)
  · dsimp only
    split
    · intro h
      rw [skip_path_tier] at h
      exact absurd h (by simp)
    · split
      · intro h
        rw [skip_path_tier] at h
        exact absurd h (by simp)
      · exact fun h => main_path_full _ _ _ _ _ _ _ _ _ h

set_option maxRecDepth 100000 in
/-- C4 witness: the concrete FULL run `fullRun` — score `0.95` on the
second consecutive qualifying turn ends the match with the English
verdict and does not advance `assistant_turns`. -/
theorem C4_full_concludes_witness :
    fullRun.tier = some ConcessionTier.FULL ∧
    fullRun.state.match_concluded = true ∧
    fullRun.saved = true ∧
    fullRun.output = build_verdict fullRun.state ∧
    fullRun.state.assistant_turns = stOneFromFull.assistant_turns := by
  have h : fullRun.tier = some ConcessionTier.FULL := by decide
  have := C4_full_concludes oracle95 {} {} (str "ok") longMsgs .PRO
    (str "Remote work is more productive") stOneFromFull h
  exact ⟨h, this.1, this.2.1, this.2.2.1, this.2.2.2⟩

/-! ## C5: the points lane of `should_end` -/

/-- C5 counterexample: a state with `positive_judgements = 3 ≥
total_min_positives` but `assistant_turns = 0` — below any positive
assistant-turn minimum, in particular the spec's default of `2` — ends the
match via the points lane (the KO and recent-window lanes are off), so the
claim's "for every state with `assistant_turns` below the minimum it does
not end via the points lane" is false: `should_end` never consults
`assistant_turns`. -/
theorem C5_counterexample :
    should_end pointsState = true ∧
    koLane pointsState = false ∧
    recentLane pointsState = false ∧
    pointsLane pointsState = true ∧
    pointsState.assistant_turns = 0 ∧
    pointsState.assistant_turns < 2 := by
  decide

/-- C5 (amended): the end check is the ordered disjunction of the KO,
recent-window and points lanes, where the points lane fires exactly when
`positive_judgements ≥ policy.total_min_positives` and
(`require_recent_positive` is off or the last tier is PARTIAL/FULL); it is
independent of `assistant_turns` — no assistant-turn minimum exists in
`DebateState.should_end`. -/
theorem C5_amended (s : DebateState) :
    (should_end s = (koLane s || recentLane s || pointsLane s)) ∧
    (pointsLane s =
      (decide (s.positive_judgements ≥ s.policy.total_min_positives) &&
        (¬ s.policy.require_recent_positive ||
          (s.last_tier == some .PARTIAL || s.last_tier == some .FULL)))) ∧
    (∀ n : ℕ, should_end { s with assistant_turns := n } = should_end s) := by
  refine ⟨?_, rfl, fun n => rfl⟩
  unfold should_end
  cases hk : koLane s <;> cases hr : recentLane s <;> cases hp : pointsLane s <;>
    simp [hk, hr, hp]

/-! ## C6: the topic gate of `apply_policy` -/

/-- C6: for a graded signal that passes the input-quality and turn gates
but is off-topic under `require_on_topic`, `apply_policy` emits NONE,
resets both contradiction streaks and warms `ema_contradiction` toward
`0`; moreover, off-topic turns never produce a non-NONE tier at all. -/
theorem C6_topic_gate (state : DebateState) (signal : NLIGradedSignal)
    (cfg : ConcessionPolicyConfig)
    (h1 : ¬ (signal.user_wc < cfg.min_user_words ∨
      (signal.is_question_only ∧ signal.user_wc ≤ cfg.question_only_wc_max)))
    (h2 : ¬ state.assistant_turns < cfg.min_turns_before_any_concession)
    (h3 : cfg.require_on_topic = true)
    (h4 : signal.on_topic = false) :
    apply_policy state signal cfg =
      (ConcessionTier.NONE, gateUpdate state 0 signal.similarity cfg.ema_alpha) ∧
    DebateState.contradiction_streak_partial (gateUpdate state 0 signal.similarity cfg.ema_alpha) = 0 ∧
    (gateUpdate state 0 signal.similarity cfg.ema_alpha).contradiction_streak_full = 0 ∧
    (gateUpdate state 0 signal.similarity cfg.ema_alpha).ema_contradiction =
      some (emaStep state.ema_contradiction 0 cfg.ema_alpha) ∧
    ∀ (state' : DebateState) (signal' : NLIGradedSignal)
      (cfg' : ConcessionPolicyConfig),
      cfg'.require_on_topic = true → signal'.on_topic = false →
        (apply_policy state' signal' cfg').1 = ConcessionTier.NONE := by
  refine ⟨?_, rfl, rfl, rfl, ?_⟩
  · unfold apply_policy
    rw [if_neg h1, if_neg h2, if_pos ⟨h3, by simp [h4]⟩]
  · intro s' g' c' hr ho
    unfold apply_policy
    split
    · rfl
    · split
      · rfl
      · split
        · rfl
        · rename_i hno
          exact absurd ⟨hr, by simp [ho]⟩ hno

/-- C6 witness: the off-topic boundary signal at the default parameters. -/
theorem C6_topic_gate_witness :
    apply_policy exState sigOffTopic {} =
      (ConcessionTier.NONE, gateUpdate exState 0 sigOffTopic.similarity
        ({} : ConcessionPolicyConfig).ema_alpha) ∧
    (apply_policy exState sigOffTopic {}).1 = ConcessionTier.NONE := by
  have h := C6_topic_gate exState sigOffTopic {} (by decide) (by decide) (by decide)
    (by decide)
  exact ⟨h.1, h.2.2.2.2 exState sigOffTopic {} (by decide) (by decide)⟩

/-! ## C7: the inclusive FULL threshold and streak escalation -/

/-- C7: a gate-passing signal with `score ≥ full_contra_min` (an inclusive
comparison, so the exact threshold qualifies) increments both streaks and
then emits FULL when the full streak has reached `full_streak`, otherwise
PARTIAL (with `partial_streak = 1`, the source default).  Applied twice,
this is exactly "at least PARTIAL at the threshold, FULL on the next
consecutive qualifying turn". -/
theorem C7_full_threshold (state : DebateState) (signal : NLIGradedSignal)
    (cfg : ConcessionPolicyConfig)
    (h1 : ¬ (signal.user_wc < cfg.min_user_words ∨
      (signal.is_question_only ∧ signal.user_wc ≤ cfg.question_only_wc_max)))
    (h2 : ¬ state.assistant_turns < cfg.min_turns_before_any_concession)
    (h3 : ¬ (cfg.require_on_topic ∧ ¬ signal.on_topic = true))
    (h4 : ¬ signal.similarity < cfg.similarity_min)
    (h5 : signal.score ≥ cfg.full_contra_min)
    (h6 : cfg.partial_streak = 1) :
    (apply_policy state signal cfg).2.contradiction_streak_full =
      state.contradiction_streak_full + 1 ∧
    DebateState.contradiction_streak_partial (apply_policy state signal cfg).2 =
      DebateState.contradiction_streak_partial state + 1 ∧
    (apply_policy state signal cfg).1 =
      (if state.contradiction_streak_full + 1 ≥ cfg.full_streak
        then ConcessionTier.FULL else ConcessionTier.PARTIAL) := by
  unfold apply_policy
  rw [if_neg h1, if_neg h2, if_neg h3, if_neg h4, if_pos h5]
  refine ⟨rfl, rfl, ?_⟩
  unfold policyTail
  dsimp only
  by_cases hf : state.contradiction_streak_full + 1 ≥ cfg.full_streak
  · rw [if_pos hf, if_pos hf]
  · rw [if_neg hf, if_neg hf, if_pos (by omega : DebateState.contradiction_streak_partial state + 1 ≥ cfg.partial_streak)]

/-- C7 witness: score exactly `0.9` at the defaults — first qualifying
turn gives PARTIAL (full streak 1 < 2), applying the policy again on the
mutated state gives FULL. -/
theorem C7_full_threshold_witness :
    sigFullBoundary.score = ({} : ConcessionPolicyConfig).full_contra_min ∧
    (apply_policy exState sigFullBoundary {}).1 = ConcessionTier.PARTIAL ∧
    (apply_policy (apply_policy exState sigFullBoundary {}).2 sigFullBoundary {}).1 =
      ConcessionTier.FULL := by
  have h1 := C7_full_threshold exState sigFullBoundary {} (by decide) (by decide)
    (by decide) (by decide) (by decide) (by decide)
  have h2 := C7_full_threshold (apply_policy exState sigFullBoundary {}).2
    sigFullBoundary {} (by decide) (by decide) (by decide) (by decide) (by decide)
    (by decide)
  refine ⟨by decide, ?_, ?_⟩
  · rw [h1.2.2]
    decide
  · rw [h2.2.2, h1.1]
    decide

/-! ## C9: `InMemoryDebateStore.create` -/

/-- C9: `create` cannot be called as its tests and its only caller call it
— `create(conversation_id, stance=..., topic=..., lang=...)` raises
`TypeError` (no `topic` parameter), and even without `topic` the body's
`DebateState(stance=..., lang=...)` raises `TypeError` (the dataclass
requires `topic`); so `create` never succeeds, against the claim that it
fails only when the key exists.  The first conjunct evaluates the exact
call of `test_create_then_get_returns_copy` on a fresh store. -/
theorem C9_create_never_succeeds :
    create_call [] 1 (some Stance.PRO) (some (str "es")) (some (str "ok")) =
      Except.error (PyError.typeError
        (str "create() got an unexpected keyword argument: topic")) ∧
    ∀ (db : DebateDB) (cid : ℕ) (stance : Option Stance)
      (lang topic : Option (List Char)),
      ∃ e, create_call db cid stance lang topic = Except.error e := by
  refine ⟨rfl, fun db cid stance lang topic => ?_⟩
  unfold create_call
  split
  · exact ⟨_, rfl⟩
  · split
    · exact ⟨_, rfl⟩
    · split
      · exact ⟨_, rfl⟩
      · exact ⟨_, rfl⟩

/-! ## C10: missing localizations return `None` -/

/-- C10: each lookup is independent — when `state.lang` is not a key of
the verdict table, `build_verdict` returns `None`, and when it is not a
key of the after-end table (so also for the verdict-only languages
fr/de/it), `after_end_message` returns `None`; there is no
default-language fallback in either table. -/
theorem C10_no_lang_fallback (s : DebateState) :
    (s.lang ∉ verdictLine.map Prod.fst → build_verdict s = none) ∧
    (s.lang ∉ afterEndMessageTable.map Prod.fst → after_end_message s = none) := by
  constructor
  · intro h1
    unfold build_verdict
    rw [List.find?_eq_none.mpr, Option.map_none']
    intro kv hkv hdec
    exact h1 (by
      simp only [decide_eq_true_eq] at hdec
      exact hdec ▸ List.mem_map_of_mem Prod.fst hkv)
  · intro h2
    unfold after_end_message
    rw [List.find?_eq_none.mpr, Option.map_none']
    intro kv hkv hdec
    exact h2 (by
      simp only [decide_eq_true_eq] at hdec
      exact hdec ▸ List.mem_map_of_mem Prod.fst hkv)

/-- C10 witness: the placeholder `"auto"` is in neither table, so both
lookups are `None`; and `"fr"` — a verdict-table key outside en/es/pt —
still gets `None` from `after_end_message`. -/
theorem C10_no_lang_fallback_witness :
    autoLangState.lang ∉ verdictLine.map Prod.fst ∧
    autoLangState.lang ∉ afterEndMessageTable.map Prod.fst ∧
    frLangState.lang ∉ afterEndMessageTable.map Prod.fst ∧
    build_verdict autoLangState = none ∧
    after_end_message autoLangState = none ∧
    after_end_message frLangState = none :=
  ⟨by decide, by decide, by decide,
    (C10_no_lang_fallback autoLangState).1 (by decide),
    (C10_no_lang_fallback autoLangState).2 (by decide),
    (C10_no_lang_fallback frLangState).2 (by decide)⟩

/-! ## C1: the short-input gate has no escalation override in the graded
path -/

set_option maxRecDepth 100000 in
/-- C1 counterexample: the four-word turn "God does not exist." against
the CON thesis on "God exists", with a constant oracle returning
contradiction `0.93`: the turn is on-topic, the thesis contradiction and
sentence probe both sit far above `strict_contra_threshold` (`0.55`), yet
`analyze_conversation` emits NONE — not at least PARTIAL as claimed.  The
escalation branch exists only in the legacy `judge_last_two_messages`,
which `analyze_conversation` never calls. -/
theorem C1_counterexample :
    word_count exShortUser < ({} : ConcessionPolicyConfig).min_user_words ∧
    topic_gate oracle93 {} exShortUser exThesis = true ∧
    max (aggMax (oracle93 exThesis (normalize_spaces exShortUser))).contradiction
        (max_contra_self_vs_sentences oracle93 exThesis exShortUser).1 ≥
      ({} : ScoringConfig).strict_contra_threshold ∧
    shortRun.tier = some ConcessionTier.NONE ∧
    ConcessionTier.rank ConcessionTier.NONE < ConcessionTier.rank ConcessionTier.PARTIAL := by
  refine ⟨by decide, by decide, by decide, by decide, by decide⟩

/-- C1 (amended): in the graded path actually run by
`analyze_conversation`, a user turn with fewer than `min_user_words` words
always yields tier NONE — regardless of thesis contradiction, the
sentence probe or the topic gate.  No escalation overrides the short-input
gate there; the override exists only in the legacy
`judge_last_two_messages` diagnostic. -/
theorem C1_short_input_no_override (nli : NLIOracle)
    (cfg : ConcessionPolicyConfig) (sc : ScoringConfig) (state : DebateState)
    (user_msg bot_msg thesis : List Char)
    (h : word_count user_msg < cfg.min_user_words) :
    (analyze_turn nli cfg sc state user_msg bot_msg thesis).tier =
      ConcessionTier.NONE := by
  unfold analyze_turn apply_policy build_graded_signal
  dsimp only
  rw [if_pos (Or.inl h)]

/-- C1 amended-claim witness at the counterexample's own input. -/
theorem C1_short_input_no_override_witness :
    word_count exShortUser < ({} : ConcessionPolicyConfig).min_user_words ∧
    (analyze_turn oracle93 {} {} exState exShortUser exBotMsg exThesis).tier =
      ConcessionTier.NONE :=
  ⟨by decide,
    C1_short_input_no_override oracle93 {} {} exState exShortUser exBotMsg
      exThesis (by decide)⟩

/-! ## C8: sanitization is not idempotent in general -/

theorem collapseWsAux_true_head (s : List Char) :
    ∀ c, (collapseWsAux true s).head? = some c → isPySpace c = false := by
  induction s with
  | nil =>
    intro c h
    simp [collapseWsAux] at h
  | cons a as ih =>
    intro c h
    by_cases hp : isPySpace a
    · simp only [collapseWsAux, hp, if_true, ite_true] at h
      exact ih c h
    · simp only [collapseWsAux, hp, ite_false, Bool.false_eq_true, if_false,
        List.head?_cons, Option.some.injEq] at h
      rw [← h]
      simpa using hp

theorem wsNormed_collapseWsAux (s : List Char) :
    ∀ b, wsNormed (collapseWsAux b s) = true := by
  induction s with
  | nil => intro b; rfl
  | cons a as ih =>
    intro b
    by_cases hp : isPySpace a
    · cases b
      · simp only [collapseWsAux, hp, ite_true, Bool.false_eq_true, if_false]
        have hh := collapseWsAux_true_head as
        simp only [wsNormed, Bool.and_eq_true]
        refine ⟨?_, ih true⟩
        cases hR : (collapseWsAux true as).head? with
        | none => simp [hR]
        | some d => simp [hR, hh d hR]
      · simp only [collapseWsAux, hp, ite_true, if_true]
        exact ih true
    · simp only [collapseWsAux, hp, ite_false, Bool.false_eq_true, if_false]
      simp only [wsNormed, Bool.and_eq_true, hp]
      exact ⟨by simp [hp], ih false⟩

theorem collapseWsAux_fix (s : List Char) (h : wsNormed s = true) :
    collapseWsAux false s = s := by
  induction s with
  | nil => rfl
  | cons a as ih =>
    simp only [wsNormed, Bool.and_eq_true] at h
    obtain ⟨h1, h2⟩ := h
    by_cases hp : isPySpace a
    · simp only [hp, ite_true, Bool.and_eq_true, beq_iff_eq] at h1
      obtain ⟨ha, hnext⟩ := h1
      have htrue : collapseWsAux true as = as := by
        cases as with
        | nil => rfl
        | cons d as' =>
          have hd : isPySpace d = false := by
            cases hmatch : (d :: as').head? with
            | none => simp at hmatch
            | some e =>
              simp only [List.head?_cons, Option.some.injEq] at hmatch
              subst hmatch
              simpa using hnext
          have := ih h2
          simp only [collapseWsAux, hd, Bool.false_eq_true, if_false,
            List.cons.injEq] at this ⊢
          exact this
      simp only [collapseWsAux, hp, ite_true, Bool.false_eq_true, if_false,
        htrue, ha]
      rw [if_pos (by decide : isPySpace ' ' = true)]
    · simp only [collapseWsAux, hp, Bool.false_eq_true, if_false,
        List.cons.injEq, true_and]
      exact ih h2

theorem wsNormed_tail (c : Char) (cs : List Char)
    (h : wsNormed (c :: cs) = true) : wsNormed cs = true := by
  simp only [wsNormed, Bool.and_eq_true] at h
  exact h.2

theorem wsNormed_dropWhile (p : Char → Bool) (l : List Char)
    (h : wsNormed l = true) : wsNormed (l.dropWhile p) = true := by
  induction l with
  | nil => exact h
  | cons a as ih =>
    by_cases hp : p a
    · rw [List.dropWhile_cons_of_pos hp]
      exact ih (wsNormed_tail _ _ h)
    · rwa [List.dropWhile_cons_of_neg hp]

theorem wsNormed_take (l : List Char) (h : wsNormed l = true) :
    ∀ n, wsNormed (l.take n) = true := by
  induction l with
  | nil => intro n; simp [wsNormed]
  | cons a as ih =>
    intro n
    cases n with
    | zero => rfl
    | succ m =>
      rw [List.take_succ_cons]
      simp only [wsNormed, Bool.and_eq_true] at h ⊢
      obtain ⟨hhead, htail⟩ := h
      refine ⟨?_, ih htail m⟩
      by_cases hp : isPySpace a
      · simp only [hp, ite_true, Bool.and_eq_true, beq_iff_eq] at hhead ⊢
        refine ⟨hhead.1, ?_⟩
        cases as with
        | nil => cases m <;> simp
        | cons d as' =>
          cases m with
          | zero => simp
          | succ m' => simpa using hhead.2
      · simp [hp]

theorem wsNormed_pyStrip (l : List Char) (h : wsNormed l = true) :
    wsNormed (pyStrip l) = true := by
  unfold pyStrip
  have h1 : wsNormed (l.dropWhile isPySpace) = true := wsNormed_dropWhile _ _ h
  have hpre := List.rdropWhile_prefix isPySpace (l.dropWhile isPySpace)
  rw [List.prefix_iff_eq_take.mp hpre]
  exact wsNormed_take _ h1 _

theorem dropWhile_head_not (p : Char → Bool) (l : List Char) :
    ∀ c cs, l.dropWhile p = c :: cs → p c = false := by
  induction l with
  | nil =>
    intro c cs h
    simp [List.dropWhile_nil] at h
  | cons a as ih =>
    intro c cs h
    by_cases hp : p a
    · rw [List.dropWhile_cons_of_pos hp] at h
      exact ih _ _ h
    · rw [List.dropWhile_cons_of_neg hp] at h
      injection h with h1 _
      subst h1
      simpa using hp

theorem pyStrip_idem (l : List Char) : pyStrip (pyStrip l) = pyStrip l := by
  unfold pyStrip
  have hz : ((l.dropWhile isPySpace).rdropWhile isPySpace).dropWhile isPySpace =
      (l.dropWhile isPySpace).rdropWhile isPySpace := by
    cases hzc : (l.dropWhile isPySpace).rdropWhile isPySpace with
    | nil => rfl
    | cons c z =>
      have hpre := List.rdropWhile_prefix isPySpace (l.dropWhile isPySpace)
      rw [hzc] at hpre
      obtain ⟨t, ht⟩ := hpre
      have harr : l.dropWhile isPySpace = c :: (z ++ t) := by
        rw [← ht]
        rfl
      have hc : isPySpace c = false :=
        dropWhile_head_not isPySpace l c (z ++ t) harr
      rw [List.dropWhile_cons_of_neg (by simp [hc])]
  rw [hz, List.rdropWhile_idempotent]

theorem normalize_spaces_idem (s : List Char) :
    normalize_spaces (normalize_spaces s) = normalize_spaces s := by
  have h1 : wsNormed (collapseWsAux false s) = true := wsNormed_collapseWsAux s false
  have h2 : wsNormed (pyStrip (collapseWsAux false s)) = true := wsNormed_pyStrip _ h1
  unfold normalize_spaces collapseWs
  rw [collapseWsAux_fix _ h2]
  exact pyStrip_idem _

theorem subMarkers_eq_of_no_marker (s : List Char)
    (h : containsMarker s = false) : subMarkers s = s := by
  unfold subMarkers
  induction s with
  | nil => rfl
  | cons c cs ih =>
    simp only [containsMarker, Bool.or_eq_false_iff] at h
    cases hm : markerAt (c :: cs) with
    | some n =>
      rw [hm] at h
      simp at h
    | none =>
      simp only [subMarkersAux, hm]
      rw [ih (by simpa using h.2)]

/-- C8 counterexample: `"match  concluded"` (two spaces) contains no end
marker, so the regex pass keeps it, but `normalize_spaces` merges the
whitespace into the marker `"match concluded"`; a second sanitization
deletes it.  Sanitization is therefore not idempotent. -/
theorem C8_counterexample :
    sanitize_end_markers (sanitize_end_markers (str "match  concluded")) ≠
      sanitize_end_markers (str "match  concluded") := by
  decide

/-- C8 (amended): sanitization is a fixed point on every input whose
sanitized form contains no end marker; in general a second pass can remove
more (whitespace normalization, or the juxtaposition left by a deletion,
can create a fresh marker), as the counterexample shows. -/
theorem C8_sanitize_idem_when_marker_free (x : List Char)
    (h : containsMarker (sanitize_end_markers x) = false) :
    sanitize_end_markers (sanitize_end_markers x) = sanitize_end_markers x := by
  unfold sanitize_end_markers at h ⊢
  rw [subMarkers_eq_of_no_marker _ h]
  exact normalize_spaces_idem _

/-- C8 amended-claim witness: a marker flanked by text sanitizes to a
marker-free string, which is then a fixed point. -/
theorem C8_sanitize_idem_witness :
    containsMarker (sanitize_end_markers (str "hello match concluded world")) = false ∧
    sanitize_end_markers (sanitize_end_markers (str "hello match concluded world")) =
      sanitize_end_markers (str "hello match concluded world") :=
  ⟨by decide, C8_sanitize_idem_when_marker_free _ (by decide)⟩

end Theorems

end PersuasionBot
